import Mathlib

/-!
Verification of the public content-query layer of a portfolio web application
(`portfolio/views.py`, `portfolio/models.py`, `portfolio/forms.py`).

The Django model classes are embedded as Lean structures; querysets become
lists; `filter` / `order_by` / slicing become `List.filter`, a stable
insertion sort, and `take` / `drop`; `django.core.paginator.Paginator` is
embedded as the `Paginator` structure below.  Timestamps (`created_at`,
`published_date`, `issue_date`, `start_date`) are modelled as integers —
only their relative order is ever used.  UUID primary keys are modelled as
naturals (opaque unique tokens).  Media/file fields (images, resume) are
out of scope per the specification and omitted from the record types.
-/

/-- `portfolio.models.About` (media fields omitted). -/
structure About where
  id : Nat
  full_name : String
  title : String
  bio : String
  email : String
  is_active : Bool
  created_at : Int
deriving DecidableEq, Repr

/-- `portfolio.models.Service`. -/
structure Service where
  id : Nat
  title : String
  description : String
  icon : String
  order : Int
  is_active : Bool
  created_at : Int
deriving DecidableEq, Repr

/-- `portfolio.models.Project` (featured image omitted; dates as ints). -/
structure Project where
  id : Nat
  title : String
  description : String
  project_type : String
  technologies : String
  github_url : String
  live_url : String
  is_featured : Bool
  is_active : Bool
  start_date : Int
  end_date : Option Int
  created_at : Int
deriving DecidableEq, Repr

/-- `portfolio.models.Blog` (featured image omitted; `published_date` is
nullable in the source but modelled as an int since no claim depends on the
database's NULL ordering). -/
structure Blog where
  id : Nat
  title : String
  slug : String
  content : String
  excerpt : String
  author : String
  is_published : Bool
  published_date : Int
  views : Int
  tags : String
  created_at : Int
deriving DecidableEq, Repr

/-- `portfolio.models.Gallery` (image omitted). -/
structure Gallery where
  id : Nat
  title : String
  category : String
  description : String
  is_active : Bool
  created_at : Int
deriving DecidableEq, Repr

/-- `portfolio.models.Testimonial` (client image omitted). -/
structure Testimonial where
  id : Nat
  client_name : String
  client_title : String
  company : String
  content : String
  rating : Int
  is_featured : Bool
  is_active : Bool
  created_at : Int
deriving DecidableEq, Repr

/-- `portfolio.models.Certificate` (image omitted). -/
structure Certificate where
  id : Nat
  name : String
  issuer : String
  issue_date : Int
  expiry_date : Option Int
  certificate_url : String
  is_active : Bool
  created_at : Int
deriving DecidableEq, Repr

/-- `portfolio.models.Skill`. -/
structure Skill where
  id : Nat
  name : String
  category : String
  proficiency : Int
  order : Int
  is_active : Bool
  created_at : Int
deriving DecidableEq, Repr

/-- `portfolio.models.ContactMessage`.  The UUID primary key is assigned at
creation and never read by the views, so it is omitted here. -/
structure ContactMessage where
  name : String
  email : String
  subject : String
  message : String
  status : String
  ip_address : Option String
  user_agent : String
deriving DecidableEq, Repr

/-- `portfolio.models.FAQ`. -/
structure FAQ where
  id : Nat
  question : String
  answer : String
  category : String
  order : Int
  is_active : Bool
  created_at : Int
deriving DecidableEq, Repr

/-- The whole persisted content store: one table per model class. -/
structure ContentStore where
  abouts : List About
  service_rows : List Service
  projects : List Project
  blogs : List Blog
  galleries : List Gallery
  testimonial_rows : List Testimonial
  certificate_rows : List Certificate
  skills : List Skill
  contact_messages : List ContactMessage
  faqs : List FAQ
deriving DecidableEq, Repr

/-- `Project.PROJECT_TYPE_CHOICES` from `models.py`. -/
def PROJECT_TYPE_CHOICES : List (String × String) :=
  [("web", "Web Development"), ("mobile", "Mobile App"),
   ("desktop", "Desktop Application"), ("other", "Other")]

/-- Django's `get_project_type_display`: the label of the choice whose code
matches, falling back to the raw value. -/
def get_project_type_display (t : String) : String :=
  ((PROJECT_TYPE_CHOICES.find? (fun kv => kv.1 == t)).map Prod.snd).getD t

/-- `order_by('-k')`: stable sort, largest key first. -/
def sortDesc (key : α → Int) (l : List α) : List α :=
  List.insertionSort (fun a b => key b ≤ key a) l

/-- `order_by('k')`: stable sort, smallest key first. -/
def sortAsc (key : α → Int) (l : List α) : List α :=
  List.insertionSort (fun a b => key a ≤ key b) l

/-- `order_by('category', 'order')`: lexicographic on a string key then an
integer key. -/
def sortByCatOrder (cat : α → String) (ord : α → Int) (l : List α) : List α :=
  List.insertionSort
    (fun a b => cat a < cat b ∨ (cat a = cat b ∧ ord a ≤ ord b)) l

/-- Python truthiness of an optional query-string value: `None` and the
empty string are falsy (`if project_type:` in the views). -/
def truthy : Option String → Bool
  | none => false
  | some s => !(s == "")

/-- The `if param: qs = qs.filter(...)` pattern of the listing views: the
filter keyed by the parameter value is applied only when the parameter is
truthy. -/
def applyOptFilter (o : Option String) (f : String → α → Bool)
    (b : List α) : List α :=
  match o with
  | none => b
  | some t => if t == "" then b else b.filter (f t)

/-- Contiguous-sublist test on character lists. -/
def hasInfix (needle : List Char) : List Char → Bool
  | [] => needle.isEmpty
  | c :: rest => needle.isPrefixOf (c :: rest) || hasInfix needle rest

/-- Case-insensitive substring test: Django's `__icontains` lookup. -/
def icontains (hay needle : String) : Bool :=
  hasInfix needle.toLower.toList hay.toLower.toList

/-- Python `int(s)` on an optionally-signed decimal string, `none` when the
call would raise `ValueError`.  (Surrounding whitespace and underscore
separators accepted by CPython are not modelled; no claim depends on them.) -/
def digitsVal (cs : List Char) : Option Nat :=
  if cs.isEmpty then none
  else cs.foldl
    (fun acc c => acc.bind (fun n =>
      if c.isDigit then some (10 * n + (c.toNat - 48)) else none))
    (some 0)

/-- See `digitsVal`. -/
def pyInt (s : String) : Option Int :=
  match s.toList with
  | '-' :: rest => (digitsVal rest).map (fun n => -(n : Int))
  | '+' :: rest => (digitsVal rest).map (fun n => (n : Int))
  | cs => (digitsVal cs).map (fun n => (n : Int))

/-- `django.core.paginator.Paginator` over a fixed object list. -/
structure Paginator (α : Type) where
  object_list : List α
  per_page : Nat

namespace Paginator

/-- `Paginator.count`. -/
def count (p : Paginator α) : Nat := p.object_list.length

/-- `Paginator.num_pages = ceil(max(1, count) / per_page)` (Django's
`orphans` parameter is left at its default 0 by all call sites). -/
def num_pages (p : Paginator α) : Nat :=
  (max 1 p.count + p.per_page - 1) / p.per_page

/-- The object slice of page `n` (1-based): `object_list[bottom:top]` with
`bottom = (n-1)*per_page` and `top` clamped to `count`. -/
def pageSlice (p : Paginator α) (n : Nat) : List α :=
  (p.object_list.drop ((n - 1) * p.per_page)).take p.per_page

/-- `Paginator.validate_number` on an already-parsed integer: `none` models
the `EmptyPage` exception. -/
def validate (p : Paginator α) (n : Int) : Option Nat :=
  if 1 ≤ n ∧ n ≤ (p.num_pages : Int) then some n.toNat else none

/-- `Paginator.get_page` on the raw query-string value: a missing or
non-integer value (`PageNotAnInteger`) yields page 1, an out-of-range value
(`EmptyPage`) yields the last page. -/
def get_page (p : Paginator α) (raw : Option String) : List α :=
  match raw with
  | none => p.pageSlice 1
  | some s =>
    match pyInt s with
    | none => p.pageSlice 1
    | some m =>
      match p.validate m with
      | some k => p.pageSlice k
      | none => p.pageSlice p.num_pages

end Paginator

/-- The dictionary-insertion step of the grouping loops in `home` and
`faq_list` (`d[x.category].append(x)`, creating the key on first sight). -/
def groupStep (cat : α → String) (acc : List (String × List α)) (x : α) :
    List (String × List α) :=
  if acc.any (fun kv => kv.1 == cat x) then
    acc.map (fun kv => if kv.1 == cat x then (kv.1, kv.2 ++ [x]) else kv)
  else acc ++ [(cat x, [x])]

/-- Group a list by category, preserving both element order inside each
bucket and first-encounter order of the buckets — the semantics of the
Python `dict`-based loops in `home` and `faq_list`. -/
def groupByCat (cat : α → String) (l : List α) : List (String × List α) :=
  l.foldl (groupStep cat) []

/-- First occurrences of a list of strings, in encounter order. -/
def dedupFirst : List String → List String
  | [] => []
  | a :: rest => a :: dedupFirst (rest.filter (fun b => !(b == a)))
termination_by l => l.length
decreasing_by
  simpa using Nat.lt_succ_of_le (List.length_filter_le _ rest)

/-- `post.tags.split(',')[0]` with the `'General'` fallback, from `home`. -/
def first_tag (b : Blog) : String :=
  if truthy (some b.tags) then ((b.tags.splitOn ",").headD "") else "General"

/-- The context assembled by the `home` view. -/
structure HomeContext where
  about : Option About
  services : List Service
  featured_projects : List Project
  testimonials : List Testimonial
  skills : List Skill
  skills_by_category : List (String × List Skill)
  blog_posts : List Blog
  blog_first_tags : List String
  faq : List FAQ
  gallery_items : List Gallery
  certificates : List Certificate
deriving DecidableEq, Repr

/-- `views.home`. -/
def home (db : ContentStore) : HomeContext :=
  let skills := sortByCatOrder (fun sk => sk.category) (fun sk => sk.order)
    (db.skills.filter (fun sk => sk.is_active))
  let blog := (sortDesc (fun b => b.published_date)
    (db.blogs.filter (fun b => b.is_published))).take 3
  { about := (db.abouts.filter (fun a => a.is_active)).head?
    services := (sortAsc (fun s => s.order)
      (db.service_rows.filter (fun s => s.is_active))).take 6
    featured_projects := (sortDesc (fun p => p.created_at)
      (db.projects.filter (fun p => p.is_active && p.is_featured))).take 4
    testimonials := (sortDesc (fun t => t.created_at)
      (db.testimonial_rows.filter (fun t => t.is_active && t.is_featured))).take 5
    skills := skills
    skills_by_category := groupByCat (fun sk => sk.category) skills
    blog_posts := blog
    blog_first_tags := blog.map first_tag
    faq := (sortByCatOrder (fun f => f.category) (fun f => f.order)
      (db.faqs.filter (fun f => f.is_active))).take 5
    gallery_items := (sortDesc (fun g => g.created_at)
      (db.galleries.filter (fun g => g.is_active))).take 8
    certificates := (sortDesc (fun c => c.issue_date)
      (db.certificate_rows.filter (fun c => c.is_active))).take 3 }

/-- `views.services`: active services by explicit order, six per page. -/
def services (db : ContentStore) (page : Option String) : List Service :=
  (Paginator.mk
    (sortAsc (fun s => s.order) (db.service_rows.filter (fun s => s.is_active)))
    6).get_page page

/-- The free-text filter of `views.project_list` (`Q(title__icontains=..) |
Q(description__icontains=..) | Q(technologies__icontains=..)`). -/
def projectSearchHit (q : String) (p : Project) : Bool :=
  icontains p.title q || icontains p.description q || icontains p.technologies q

/-- `views.project_list`: the page of projects placed in the context.  The
`type` and `search` parameters are applied only when truthy, matching the
Python `if project_type:` / `if search_query:` guards. -/
def project_list (db : ContentStore)
    (ptype search page : Option String) : List Project :=
  let base := db.projects.filter (fun p => p.is_active)
  let base := applyOptFilter ptype (fun t p => p.project_type == t) base
  let base := applyOptFilter search projectSearchHit base
  (Paginator.mk (sortDesc (fun p => p.created_at) base) 9).get_page page

/-- `views.project_detail`: the active project with the given id together
with up to three related projects (same type, self excluded, newest first);
`none` models the 404 response of `get_object_or_404`. -/
def project_detail (db : ContentStore) (pid : Nat) :
    Option (Project × List Project) :=
  match db.projects.find? (fun p => p.id == pid && p.is_active) with
  | none => none
  | some proj =>
    some (proj,
      (sortDesc (fun p => p.created_at)
        (db.projects.filter (fun q =>
          q.is_active && q.project_type == proj.project_type &&
            q.id != proj.id))).take 3)

/-- The free-text filter of `views.blog_list`. -/
def blogSearchHit (q : String) (b : Blog) : Bool :=
  icontains b.title q || icontains b.content q || icontains b.tags q ||
    icontains b.excerpt q

/-- The tag cloud of `views.blog_list`: `sorted(set(stripped tags))`. -/
def blogAllTags (blogs : List Blog) : List String :=
  List.insertionSort (fun a b => a ≤ b)
    ((blogs.flatMap (fun b =>
      ((b.tags.splitOn ",").map String.trim).filter (fun t => !(t == "")))).dedup)

/-- `views.blog_list`: the page of published posts plus the tag cloud.  The
`category` parameter is read by the view but never used. -/
def blog_list (db : ContentStore)
    (category search page : Option String) : List Blog × List String :=
  let base := db.blogs.filter (fun b => b.is_published)
  let base := applyOptFilter search blogSearchHit base
  let sorted := sortDesc (fun b => b.published_date) base
  ((Paginator.mk sorted 6).get_page page, blogAllTags sorted)

/-- `views.blog_detail`: looks up the published post by slug (404 → `none`),
increments its view counter and saves, then computes related posts from the
updated table.  Returns (rendered post, updated blog table, related). -/
def blog_detail (db : ContentStore) (slug : String) :
    Option (Blog × List Blog × List Blog) :=
  match db.blogs.find? (fun b => b.slug == slug && b.is_published) with
  | none => none
  | some b =>
    let updated := { b with views := b.views + 1 }
    let newBlogs := db.blogs.map (fun x => if x.id == b.id then updated else x)
    let related := (sortDesc (fun x => x.published_date)
      (newBlogs.filter (fun x => x.is_published && x.id != b.id))).take 3
    some (updated, newBlogs, related)

/-- `views.gallery`: active items, optional category filter, 12 per page. -/
def gallery (db : ContentStore) (category page : Option String) : List Gallery :=
  let base := db.galleries.filter (fun g => g.is_active)
  let base := applyOptFilter category (fun c g => g.category == c) base
  (Paginator.mk (sortDesc (fun g => g.created_at) base) 12).get_page page

/-- `views.testimonials`: active testimonials, newest first, 8 per page. -/
def testimonials (db : ContentStore) (page : Option String) : List Testimonial :=
  (Paginator.mk
    (sortDesc (fun t => t.created_at)
      (db.testimonial_rows.filter (fun t => t.is_active)))
    8).get_page page

/-- `views.certificates`: active certificates by issue date, no pagination. -/
def certificates (db : ContentStore) : List Certificate :=
  sortDesc (fun c => c.issue_date)
    (db.certificate_rows.filter (fun c => c.is_active))

/-- `views.faq_list`: active FAQs sorted by (category, order). -/
def faqSorted (db : ContentStore) : List FAQ :=
  sortByCatOrder (fun f => f.category) (fun f => f.order)
    (db.faqs.filter (fun f => f.is_active))

/-- `views.faq_list`: the `faqs_by_category` grouping placed in the context. -/
def faq_list (db : ContentStore) : List (String × List FAQ) :=
  groupByCat (fun f => f.category) (faqSorted db)

/-- An inbound HTTP request as seen by `views.contact`: the POSTed form
fields plus the metadata the view reads (`REMOTE_ADDR`, `HTTP_USER_AGENT`,
the `X-Requested-With` header). -/
structure ContactRequest where
  method : String
  name : String
  email : String
  subject : String
  message : String
  remote_addr : Option String
  user_agent : Option String
  xhr : Bool
deriving DecidableEq, Repr

/-- The possible responses of `views.contact`. -/
inductive ContactResponse where
  | json_success
  | success_page
  | form_page (errors : List (String × String))
deriving DecidableEq, Repr

/-- Field-level validation errors of `forms.ContactForm`: all four model
fields are required, and the email field is additionally checked by the
framework's email validator, which is external code and therefore passed in
as the `validEmail` parameter. -/
def formErrors (validEmail : String → Bool) (r : ContactRequest) :
    List (String × String) :=
  (if r.name == "" then [("name", "This field is required.")] else [])
  ++ (if r.email == "" then [("email", "This field is required.")]
      else if !(validEmail r.email) then
        [("email", "Enter a valid email address.")]
      else [])
  ++ (if r.subject == "" then [("subject", "This field is required.")] else [])
  ++ (if r.message == "" then [("message", "This field is required.")] else [])

/-- `ContactForm.is_valid()`. -/
def form_is_valid (validEmail : String → Bool) (r : ContactRequest) : Bool :=
  (formErrors validEmail r).isEmpty

/-- `views.contact`: on a valid POST, appends one `ContactMessage` (status
defaults to `'new'`, IP and user agent taken from the request metadata) and
answers with JSON for XHR callers or the success page otherwise; on an
invalid POST, stores nothing and re-renders the form with the field
errors; on GET, renders the empty form. -/
def contact (validEmail : String → Bool) (msgs : List ContactMessage)
    (r : ContactRequest) : List ContactMessage × ContactResponse :=
  if r.method == "POST" then
    if form_is_valid validEmail r then
      let m : ContactMessage :=
        { name := r.name, email := r.email, subject := r.subject,
          message := r.message, status := "new",
          ip_address := r.remote_addr,
          user_agent := r.user_agent.getD "" }
      (msgs ++ [m],
        if r.xhr then ContactResponse.json_success
        else ContactResponse.success_page)
    else (msgs, ContactResponse.form_page (formErrors validEmail r))
  else (msgs, ContactResponse.form_page [])

/-- One entry of the JSON projection built by `views.api_projects` (the
featured-image URL is omitted with the other media fields; the ISO date
strings keep their underlying int values). -/
structure ApiProject where
  id : String
  title : String
  description : String
  project_type : String
  technologies : String
  github_url : String
  live_url : String
  start_date : Int
  end_date : Option Int
deriving DecidableEq, Repr

/-- The `pagination` object of the `api_projects` payload. -/
structure ApiPagination where
  total : Nat
  pages : Nat
  current : Nat
  has_next : Bool
  has_previous : Bool
deriving DecidableEq, Repr

/-- The full `api_projects` JSON payload. -/
structure ApiResult where
  projects : List ApiProject
  pagination : ApiPagination
deriving DecidableEq, Repr

/-- The per-project serialization of `views.api_projects`. -/
def toApiProject (p : Project) : ApiProject :=
  { id := toString p.id, title := p.title, description := p.description,
    project_type := get_project_type_display p.project_type,
    technologies := p.technologies, github_url := p.github_url,
    live_url := p.live_url, start_date := p.start_date,
    end_date := p.end_date }

/-- `int(request.GET.get(key, default))`: the literal default when the
parameter is absent, otherwise Python `int` parsing (which raises on
malformed input — `none`). -/
def intParam (default : Int) : Option String → Option Int
  | none => some default
  | some s => pyInt s

/-- The queryset of `views.api_projects`. -/
def apiProjectsQueryset (db : ContentStore) : List Project :=
  sortDesc (fun p => p.created_at) (db.projects.filter (fun p => p.is_active))

/-- `views.api_projects`.  `none` models an uncaught exception escaping the
handler: `int()` raising `ValueError` on a malformed `page`/`per_page`
parameter, or — because the bare `except` falls back to `paginator.page(1)`,
which raises again — a `per_page` value below 1 (`ZeroDivisionError` for 0,
`EmptyPage` for negatives).  Otherwise the requested page is served, with
any out-of-range page number replaced by page 1 in the `except` branch. -/
def api_projects (db : ContentStore)
    (pageParam perPageParam : Option String) : Option ApiResult :=
  match intParam 1 pageParam, intParam 9 perPageParam with
  | some page, some per_page =>
    if 1 ≤ per_page then
      let pg : Paginator Project :=
        Paginator.mk (apiProjectsQueryset db) per_page.toNat
      let chosen : Nat :=
        match pg.validate page with
        | some k => k
        | none => 1
      some { projects := (pg.pageSlice chosen).map toApiProject,
             pagination :=
               { total := pg.count, pages := pg.num_pages, current := chosen,
                 has_next := decide (chosen < pg.num_pages),
                 has_previous := decide (1 < chosen) } }
    else none
  | _, _ => none

/-! ### Helper lemmas -/

theorem mem_applyOptFilter {o : Option String} {f : String → α → Bool}
    {b : List α} {x : α} (h : x ∈ applyOptFilter o f b) : x ∈ b := by
  unfold applyOptFilter at h
  split at h
  · exact h
  · split at h
    · exact h
    · exact List.mem_of_mem_filter h

theorem mem_sortDesc {key : α → Int} {l : List α} {x : α} :
    x ∈ sortDesc key l ↔ x ∈ l := List.mem_insertionSort _

theorem mem_sortAsc {key : α → Int} {l : List α} {x : α} :
    x ∈ sortAsc key l ↔ x ∈ l := List.mem_insertionSort _

theorem mem_sortByCatOrder {cat : α → String} {ord : α → Int}
    {l : List α} {x : α} :
    x ∈ sortByCatOrder cat ord l ↔ x ∈ l := List.mem_insertionSort _

theorem sorted_sortDesc (key : α → Int) (l : List α) :
    List.Sorted (fun a b => key b ≤ key a) (sortDesc key l) := by
  haveI : IsTotal α fun a b => key b ≤ key a :=
    ⟨fun a b => le_total (key b) (key a)⟩
  haveI : IsTrans α fun a b => key b ≤ key a :=
    ⟨fun a b c h1 h2 => le_trans h2 h1⟩
  exact List.sorted_insertionSort _ _

theorem mem_pageSlice {p : Paginator α} {n : Nat} {x : α}
    (h : x ∈ p.pageSlice n) : x ∈ p.object_list :=
  List.mem_of_mem_drop (List.mem_of_mem_take h)

theorem mem_get_page {p : Paginator α} {raw : Option String} {x : α}
    (h : x ∈ p.get_page raw) : x ∈ p.object_list := by
  unfold Paginator.get_page at h
  repeat' split at h
  all_goals exact mem_pageSlice h

theorem length_pageSlice (p : Paginator α) (n : Nat) :
    (p.pageSlice n).length =
      min p.per_page (p.count - (n - 1) * p.per_page) := by
  unfold Paginator.pageSlice Paginator.count
  simp [List.length_take, List.length_drop]

theorem head?_filter_eq_some {f : α → Bool} {l : List α} {a : α}
    (h : (l.filter f).head? = some a) : f a = true := by
  have ha : a ∈ l.filter f := List.mem_of_mem_head? (Option.mem_def.mpr h)
  exact (List.mem_filter.mp ha).2

theorem mem_dedupFirst_iff : ∀ (l : List String) (c : String),
    c ∈ dedupFirst l ↔ c ∈ l
  | [], c => by simp [dedupFirst]
  | a :: rest, c => by
    rw [dedupFirst, List.mem_cons,
      mem_dedupFirst_iff (rest.filter (fun b => !(b == a))) c]
    simp only [List.mem_filter, List.mem_cons, Bool.not_eq_eq_eq_not,
      Bool.not_true, beq_eq_false_iff_ne, ne_eq]
    constructor
    · rintro (rfl | ⟨hc, _⟩)
      · exact Or.inl rfl
      · exact Or.inr hc
    · rintro (rfl | hc)
      · exact Or.inl rfl
      · by_cases hca : c = a
        · exact Or.inl hca
        · exact Or.inr ⟨hc, hca⟩
termination_by l _ => l.length
decreasing_by
  simpa using Nat.lt_succ_of_le (List.length_filter_le _ rest)

theorem dedupFirst_append_singleton : ∀ (l : List String) (a : String),
    dedupFirst (l ++ [a]) =
      if a ∈ l then dedupFirst l else dedupFirst l ++ [a]
  | [], a => by simp [dedupFirst]
  | b :: rest, a => by
    rw [List.cons_append, dedupFirst, dedupFirst, List.filter_append]
    by_cases hab : a = b
    · subst hab
      simp
    · have hfa : [a].filter (fun c => !(c == b)) = [a] := by
        simp [hab]
      rw [hfa, dedupFirst_append_singleton (rest.filter (fun c => !(c == b))) a]
      by_cases hmem : a ∈ rest
      · have h1 : a ∈ rest.filter (fun c => !(c == b)) := by
          simp [List.mem_filter, hmem, hab]
        simp [hmem, h1, hab]
      · have h1 : a ∉ rest.filter (fun c => !(c == b)) :=
          fun hc => hmem (List.mem_of_mem_filter hc)
        simp [hmem, h1, hab]
termination_by l _ => l.length
decreasing_by
  simpa using Nat.lt_succ_of_le (List.length_filter_le _ rest)

/-- `groupByCat` appends at most one element at a time, so it is analysed
by induction from the right. -/
theorem groupByCat_append_singleton (cat : α → String) (l : List α) (x : α) :
    groupByCat cat (l ++ [x]) = groupStep cat (groupByCat cat l) x := by
  unfold groupByCat
  rw [List.foldl_append]
  rfl

/-- Full characterisation of the dictionary-grouping loop: every bucket is
the subsequence of the input with that category (hence keeps the input's
relative order), and the keys appear in first-encounter order. -/
theorem groupByCat_spec (cat : α → String) (l : List α) :
    (∀ kb ∈ groupByCat cat l, kb.2 = l.filter (fun y => cat y == kb.1))
    ∧ (groupByCat cat l).map Prod.fst = dedupFirst (l.map cat) := by
  induction l using List.reverseRecOn with
  | nil => constructor <;> simp [groupByCat, dedupFirst]
  | append_singleton l x ih =>
    obtain ⟨ih1, ih2⟩ := ih
    rw [groupByCat_append_singleton]
    by_cases hx : cat x ∈ l.map cat
    · have hany : (groupByCat cat l).any (fun kv => kv.1 == cat x) = true := by
        have hk : cat x ∈ (groupByCat cat l).map Prod.fst := by
          rw [ih2]; exact (mem_dedupFirst_iff _ _).mpr hx
        obtain ⟨kv, hkv, he⟩ := List.mem_map.mp hk
        exact List.any_eq_true.mpr ⟨kv, hkv, by simp [he]⟩
      have hstep : groupStep cat (groupByCat cat l) x =
          (groupByCat cat l).map
            (fun kv => if kv.1 == cat x then (kv.1, kv.2 ++ [x]) else kv) := by
        simp [groupStep, hany]
      rw [hstep]
      constructor
      · intro kb hkb
        obtain ⟨kv, hkv, he⟩ := List.mem_map.mp hkb
        have hbucket := ih1 kv hkv
        by_cases hkv1 : kv.1 = cat x
        · have he2 : kb = (kv.1, kv.2 ++ [x]) := by
            rw [← he]; simp [hkv1]
          rw [he2, List.filter_append]
          have hfx : [x].filter (fun y => cat y == kv.1) = [x] := by
            simp [hkv1]
          simp only [hfx, hbucket]
        · have he2 : kb = kv := by
            rw [← he]; simp [hkv1]
          rw [he2, List.filter_append]
          have hfx : [x].filter (fun y => cat y == kv.1) = [] := by
            simp [Ne.symm hkv1]
          simp only [hfx, List.append_nil, hbucket]
      · rw [List.map_map]
        have hfst : ((groupByCat cat l).map
            (Prod.fst ∘ fun kv =>
              if kv.1 == cat x then (kv.1, kv.2 ++ [x]) else kv)) =
            (groupByCat cat l).map Prod.fst := by
          refine List.map_congr_left ?_
          intro kv _
          by_cases hkv1 : kv.1 = cat x <;> simp [hkv1]
        rw [hfst, ih2, List.map_append, List.map_singleton,
          dedupFirst_append_singleton, if_pos hx]
    · have hany : (groupByCat cat l).any (fun kv => kv.1 == cat x) = false := by
        rw [List.any_eq_false]
        intro kv hkv
        simp only [beq_iff_eq]
        intro he
        have hk : cat x ∈ (groupByCat cat l).map Prod.fst :=
          he ▸ List.mem_map.mpr ⟨kv, hkv, rfl⟩
        rw [ih2, mem_dedupFirst_iff] at hk
        exact hx hk
      have hstep : groupStep cat (groupByCat cat l) x =
          groupByCat cat l ++ [(cat x, [x])] := by
        simp [groupStep, hany]
      rw [hstep]
      have hkeys : ∀ kv ∈ groupByCat cat l, kv.1 ≠ cat x := by
        intro kv hkv he
        have := List.any_eq_false.mp hany kv hkv
        simp [he] at this
      constructor
      · intro kb hkb
        rcases List.mem_append.mp hkb with hold | hnew
        · have hbucket := ih1 kb hold
          rw [List.filter_append]
          have hfx : [x].filter (fun y => cat y == kb.1) = [] := by
            simp [Ne.symm (hkeys kb hold)]
          simp only [hfx, List.append_nil, hbucket]
        · have he : kb = (cat x, [x]) := by simpa using hnew
          rw [he, List.filter_append]
          have hl0 : l.filter (fun y => cat y == cat x) = [] := by
            rw [List.filter_eq_nil_iff]
            intro y hy
            simp only [beq_iff_eq]
            intro hcy
            exact hx (List.mem_map.mpr ⟨y, hy, hcy⟩)
          have hfx : [x].filter (fun y => cat y == cat x) = [x] := by simp
          simp only [hl0, hfx, List.nil_append]
      · rw [List.map_append, List.map_singleton, ih2, List.map_append,
          List.map_singleton, dedupFirst_append_singleton, if_neg hx]

theorem find?_eq_some_of_unique {p : α → Bool} {l : List α} {b : α}
    (hb : b ∈ l) (hpb : p b = true)
    (huniq : ∀ x ∈ l, p x = true → x = b) :
    l.find? p = some b := by
  induction l with
  | nil => cases hb
  | cons a rest ih =>
    by_cases ha : p a = true
    · rw [List.find?_cons_of_pos _ ha,
        huniq a (List.mem_cons_self _ _) ha]
    · rw [List.find?_cons_of_neg _ ha]
      have hbtail : b ∈ rest := by
        rcases List.mem_cons.mp hb with rfl | h
        · exact absurd hpb ha
        · exact h
      exact ih hbtail (fun x hx hpx => huniq x (List.mem_cons_of_mem _ hx) hpx)

/-- The empty content store, used to build concrete test stores. -/
def emptyStore : ContentStore :=
  { abouts := [], service_rows := [], projects := [], blogs := [],
    galleries := [], testimonial_rows := [], certificate_rows := [],
    skills := [], contact_messages := [], faqs := [] }

/-! ### Claims -/

/-- C1: every public listing endpoint (projects, blog, gallery, services,
testimonials, certificates, FAQ, home) returns, in every state of the
content store and for all query parameters, only records whose active flag
is set (`is_active` — `is_published` for blog posts); inactive records
never appear. -/
theorem public_listings_only_active (db : ContentStore)
    (t s pg c s2 pg2 c2 pg3 pg4 pg5 : Option String) :
    (∀ x ∈ project_list db t s pg, x.is_active = true)
    ∧ (∀ x ∈ (blog_list db c s2 pg2).1, x.is_published = true)
    ∧ (∀ x ∈ gallery db c2 pg3, x.is_active = true)
    ∧ (∀ x ∈ services db pg4, x.is_active = true)
    ∧ (∀ x ∈ testimonials db pg5, x.is_active = true)
    ∧ (∀ x ∈ certificates db, x.is_active = true)
    ∧ (∀ kb ∈ faq_list db, ∀ x ∈ kb.2, x.is_active = true)
    ∧ (∀ a, (home db).about = some a → a.is_active = true)
    ∧ (∀ x ∈ (home db).services, x.is_active = true)
    ∧ (∀ x ∈ (home db).featured_projects, x.is_active = true)
    ∧ (∀ x ∈ (home db).testimonials, x.is_active = true)
    ∧ (∀ x ∈ (home db).skills, x.is_active = true)
    ∧ (∀ kb ∈ (home db).skills_by_category, ∀ x ∈ kb.2, x.is_active = true)
    ∧ (∀ x ∈ (home db).blog_posts, x.is_published = true)
    ∧ (∀ x ∈ (home db).faq, x.is_active = true)
    ∧ (∀ x ∈ (home db).gallery_items, x.is_active = true)
    ∧ (∀ x ∈ (home db).certificates, x.is_active = true) := by
  refine ⟨?_, ?_, ?_, ?_, ?_, ?_, ?_, ?_, ?_, ?_, ?_, ?_, ?_, ?_, ?_, ?_, ?_⟩
  · intro x hx
    exact (List.mem_filter.mp (mem_applyOptFilter (mem_applyOptFilter
      (mem_sortDesc.mp (mem_get_page hx))))).2
  · intro x hx
    exact (List.mem_filter.mp (mem_applyOptFilter
      (mem_sortDesc.mp (mem_get_page hx)))).2
  · intro x hx
    exact (List.mem_filter.mp (mem_applyOptFilter
      (mem_sortDesc.mp (mem_get_page hx)))).2
  · intro x hx
    exact (List.mem_filter.mp (mem_sortAsc.mp (mem_get_page hx))).2
  · intro x hx
    exact (List.mem_filter.mp (mem_sortDesc.mp (mem_get_page hx))).2
  · intro x hx
    exact (List.mem_filter.mp (mem_sortDesc.mp hx)).2
  · intro kb hkb x hx
    simp only [faq_list] at hkb
    have hb := (groupByCat_spec (fun f => f.category) (faqSorted db)).1 kb hkb
    rw [hb] at hx
    have hx2 : x ∈ faqSorted db := List.mem_of_mem_filter hx
    exact (List.mem_filter.mp (mem_sortByCatOrder.mp hx2)).2
  · intro a ha
    exact head?_filter_eq_some ha
  · intro x hx
    exact (List.mem_filter.mp (mem_sortAsc.mp (List.mem_of_mem_take hx))).2
  · intro x hx
    have h2 := (List.mem_filter.mp
      (mem_sortDesc.mp (List.mem_of_mem_take hx))).2
    simp only [Bool.and_eq_true] at h2
    exact h2.1
  · intro x hx
    have h2 := (List.mem_filter.mp
      (mem_sortDesc.mp (List.mem_of_mem_take hx))).2
    simp only [Bool.and_eq_true] at h2
    exact h2.1
  · intro x hx
    exact (List.mem_filter.mp (mem_sortByCatOrder.mp hx)).2
  · intro kb hkb x hx
    simp only [home] at hkb
    have hb := (groupByCat_spec (fun sk => sk.category)
      (sortByCatOrder (fun sk => sk.category) (fun sk => sk.order)
        (db.skills.filter (fun sk => sk.is_active)))).1 kb hkb
    rw [hb] at hx
    exact (List.mem_filter.mp
      (mem_sortByCatOrder.mp (List.mem_of_mem_filter hx))).2
  · intro x hx
    exact (List.mem_filter.mp (mem_sortDesc.mp (List.mem_of_mem_take hx))).2
  · intro x hx
    exact (List.mem_filter.mp
      (mem_sortByCatOrder.mp (List.mem_of_mem_take hx))).2
  · intro x hx
    exact (List.mem_filter.mp (mem_sortDesc.mp (List.mem_of_mem_take hx))).2
  · intro x hx
    exact (List.mem_filter.mp (mem_sortDesc.mp (List.mem_of_mem_take hx))).2

/-- C2: for every active project served by the detail view, the related
list contains only active projects of the same type, never the project
itself, has at most 3 entries, and is ordered most recent first. -/
theorem related_projects_spec (db : ContentStore) (pid : Nat)
    (proj : Project) (related : List Project)
    (h : project_detail db pid = some (proj, related)) :
    (∀ q ∈ related, q.is_active = true ∧ q.project_type = proj.project_type
      ∧ q.id ≠ proj.id)
    ∧ related.length ≤ 3
    ∧ List.Sorted (fun a b => b.created_at ≤ a.created_at) related := by
  unfold project_detail at h
  cases hf : db.projects.find? (fun p => p.id == pid && p.is_active) with
  | none => rw [hf] at h; exact absurd h (by simp)
  | some p0 =>
    rw [hf] at h
    simp only [Option.some.injEq, Prod.mk.injEq] at h
    obtain ⟨hp, hr⟩ := h
    subst hp
    subst hr
    refine ⟨?_, ?_, ?_⟩
    · intro q hq
      have hpred := (List.mem_filter.mp
        (mem_sortDesc.mp (List.mem_of_mem_take hq))).2
      simp only [Bool.and_eq_true, beq_iff_eq, bne_iff_ne, ne_eq] at hpred
      exact ⟨hpred.1.1, hpred.1.2, hpred.2⟩
    · exact List.length_take_le _ _
    · have hs := sorted_sortDesc (fun p : Project => p.created_at)
        (db.projects.filter (fun q =>
          q.is_active && q.project_type == p0.project_type && q.id != p0.id))
      exact List.Pairwise.sublist (List.take_sublist _ _) hs

/-- A one-project store exercising `project_detail`. -/
def c2Proj : Project :=
  { id := 1, title := "T", description := "D", project_type := "web",
    technologies := "x", github_url := "", live_url := "",
    is_featured := false, is_active := true, start_date := 0,
    end_date := none, created_at := 0 }

/-- See `c2Proj`. -/
def c2Db : ContentStore := { emptyStore with projects := [c2Proj] }

/-- Witness for C2 at a concrete store. -/
theorem related_projects_spec_witness :
    (∀ q ∈ ([] : List Project), q.is_active = true
      ∧ q.project_type = c2Proj.project_type ∧ q.id ≠ c2Proj.id)
    ∧ ([] : List Project).length ≤ 3
    ∧ List.Sorted (fun a b => b.created_at ≤ a.created_at)
        ([] : List Project) :=
  related_projects_spec c2Db 1 c2Proj [] (by decide)

/-- C9: a project id whose record is inactive, and a blog slug whose record
is unpublished, are served a not-found response by the detail views exactly
as ids/slugs with no record at all: whenever no active (resp. published)
record carries the identifier, the view yields `none`. -/
theorem inactive_detail_not_found (db : ContentStore) (pid : Nat) (s : String)
    (hp : ∀ p ∈ db.projects, p.id = pid → p.is_active = false)
    (hb : ∀ x ∈ db.blogs, x.slug = s → x.is_published = false) :
    project_detail db pid = none ∧ blog_detail db s = none := by
  constructor
  · unfold project_detail
    have hnone : db.projects.find? (fun p => p.id == pid && p.is_active)
        = none := by
      rw [List.find?_eq_none]
      intro p hpmem hcontr
      simp only [Bool.and_eq_true, beq_iff_eq] at hcontr
      have h3 := hp p hpmem hcontr.1
      rw [h3] at hcontr
      exact Bool.false_ne_true hcontr.2
    rw [hnone]
  · unfold blog_detail
    have hnone : db.blogs.find? (fun x => x.slug == s && x.is_published)
        = none := by
      rw [List.find?_eq_none]
      intro x hxmem hcontr
      simp only [Bool.and_eq_true, beq_iff_eq] at hcontr
      have h3 := hb x hxmem hcontr.1
      rw [h3] at hcontr
      exact Bool.false_ne_true hcontr.2
    rw [hnone]

/-- An inactive project and an unpublished blog post, for C9. -/
def c9Proj : Project :=
  { id := 7, title := "Hidden", description := "D", project_type := "web",
    technologies := "x", github_url := "", live_url := "",
    is_featured := false, is_active := false, start_date := 0,
    end_date := none, created_at := 0 }

/-- See `c9Proj`. -/
def c9Blog : Blog :=
  { id := 3, title := "Draft", slug := "draft", content := "c",
    excerpt := "e", author := "a", is_published := false,
    published_date := 0, views := 0, tags := "", created_at := 0 }

/-- See `c9Proj`. -/
def c9Db : ContentStore :=
  { emptyStore with projects := [c9Proj], blogs := [c9Blog] }

/-- Witness for C9: the inactive/unpublished records get a 404. -/
theorem inactive_detail_not_found_witness :
    project_detail c9Db 7 = none ∧ blog_detail c9Db "draft" = none :=
  inactive_detail_not_found c9Db 7 "draft" (by decide) (by decide)

/-- C10: two blog-listing requests that differ only in the `category`
query parameter (value or presence) return identical results — the
parameter is read by the view but never used. -/
theorem blog_list_ignores_category (db : ContentStore)
    (c1 c2 s pg : Option String) :
    blog_list db c1 s pg = blog_list db c2 s pg := rfl

/-- C3: under non-concurrent access, one request to the blog detail view
for a published post with slug `s` increments exactly that post's view
counter by 1 and leaves every other post's row unchanged (uniqueness of
primary keys and slugs is the database's uniqueness constraint). -/
theorem blog_detail_view_count (db : ContentStore) (s : String) (b : Blog)
    (hid : (db.blogs.map (fun x => x.id)).Nodup)
    (hslug : (db.blogs.map (fun x => x.slug)).Nodup)
    (hb : b ∈ db.blogs) (hpub : b.is_published = true) (hs : b.slug = s) :
    ∃ newBlogs related,
      blog_detail db s =
        some ({ b with views := b.views + 1 }, newBlogs, related)
      ∧ newBlogs.length = db.blogs.length
      ∧ (∀ i (h1 : i < db.blogs.length) (h2 : i < newBlogs.length),
          ((db.blogs.get ⟨i, h1⟩).slug = s →
            newBlogs.get ⟨i, h2⟩ =
              { db.blogs.get ⟨i, h1⟩ with
                  views := (db.blogs.get ⟨i, h1⟩).views + 1 })
          ∧ ((db.blogs.get ⟨i, h1⟩).slug ≠ s →
            newBlogs.get ⟨i, h2⟩ = db.blogs.get ⟨i, h1⟩)) := by
  have hinj_slug := List.inj_on_of_nodup_map hslug
  have hinj_id := List.inj_on_of_nodup_map hid
  have hfind : db.blogs.find? (fun x => x.slug == s && x.is_published)
      = some b := by
    apply find?_eq_some_of_unique hb
    · simp [hs, hpub]
    · intro x hx hpx
      simp only [Bool.and_eq_true, beq_iff_eq] at hpx
      exact hinj_slug hx hb (by rw [hpx.1, hs])
  refine ⟨db.blogs.map (fun x =>
      if x.id == b.id then { b with views := b.views + 1 } else x),
    (sortDesc (fun x => x.published_date)
      ((db.blogs.map (fun x =>
        if x.id == b.id then { b with views := b.views + 1 } else x)).filter
        (fun x => x.is_published && x.id != b.id))).take 3,
    ?_, by simp, ?_⟩
  · simp only [blog_detail, hfind]
  · intro i h1 h2
    have hxmem : db.blogs.get ⟨i, h1⟩ ∈ db.blogs := List.get_mem _ _ _
    constructor
    · intro hsl
      have hxb : db.blogs.get ⟨i, h1⟩ = b :=
        hinj_slug hxmem hb (by rw [hsl, hs])
      simp only [List.get_eq_getElem, List.getElem_map]
      rw [List.get_eq_getElem] at hxb
      rw [hxb]
      simp
    · intro hne
      have hbeq : ¬((db.blogs.get ⟨i, h1⟩).id == b.id) = true := by
        intro hcontr
        have hxb : db.blogs.get ⟨i, h1⟩ = b :=
          hinj_id hxmem hb (eq_of_beq hcontr)
        exact hne (by rw [hxb, hs])
      simp only [List.get_eq_getElem, List.getElem_map]
      rw [List.get_eq_getElem] at hbeq
      rw [if_neg hbeq]

/-- A one-post store exercising `blog_detail`, for the C3 witness. -/
def c3Blog : Blog :=
  { id := 1, title := "B", slug := "hello", content := "c", excerpt := "e",
    author := "a", is_published := true, published_date := 10, views := 0,
    tags := "t", created_at := 5 }

/-- See `c3Blog`. -/
def c3Db : ContentStore := { emptyStore with blogs := [c3Blog] }

/-- Witness for C3 at a concrete one-post store. -/
theorem blog_detail_view_count_witness :
    ∃ newBlogs related,
      blog_detail c3Db "hello" =
        some ({ c3Blog with views := c3Blog.views + 1 }, newBlogs, related)
      ∧ newBlogs.length = c3Db.blogs.length
      ∧ (∀ i (h1 : i < c3Db.blogs.length) (h2 : i < newBlogs.length),
          ((c3Db.blogs.get ⟨i, h1⟩).slug = "hello" →
            newBlogs.get ⟨i, h2⟩ =
              { c3Db.blogs.get ⟨i, h1⟩ with
                  views := (c3Db.blogs.get ⟨i, h1⟩).views + 1 })
          ∧ ((c3Db.blogs.get ⟨i, h1⟩).slug ≠ "hello" →
            newBlogs.get ⟨i, h2⟩ = c3Db.blogs.get ⟨i, h1⟩)) :=
  blog_detail_view_count c3Db "hello" c3Blog (by decide) (by decide)
    (by decide) (by decide) (by decide)

/-- The record stored by a valid contact POST: the form fields, the default
status `'new'`, and the request metadata (`contact_message.save()` in the
view). -/
def newContactMessage (r : ContactRequest) : ContactMessage :=
  { name := r.name, email := r.email, subject := r.subject,
    message := r.message, status := "new", ip_address := r.remote_addr,
    user_agent := r.user_agent.getD "" }

theorem formErrors_ne_nil {validEmail : String → Bool} {r : ContactRequest}
    (h : r.name = "" ∨ r.email = "" ∨ r.subject = "" ∨ r.message = ""
      ∨ validEmail r.email = false) :
    formErrors validEmail r ≠ [] := by
  unfold formErrors
  rcases h with h | h | h | h | h
  · simp [h]
  · simp [h]
  · simp [h]
  · simp [h]
  · by_cases he : r.email = "" <;> simp [he, h]

/-- C5: a contact-form POST whose four fields are non-empty and whose email
passes the (framework-supplied) email validator appends exactly one new
`ContactMessage` with status `"new"` and the caller's IP/user-agent; any
other POST stores nothing and re-renders the form with non-empty
field-level error text. -/
theorem contact_post_spec (validEmail : String → Bool)
    (msgs : List ContactMessage) (r : ContactRequest)
    (hpost : r.method = "POST") :
    ((r.name ≠ "" ∧ r.email ≠ "" ∧ r.subject ≠ "" ∧ r.message ≠ ""
        ∧ validEmail r.email = true) →
      contact validEmail msgs r =
        (msgs ++ [newContactMessage r],
          if r.xhr then ContactResponse.json_success
          else ContactResponse.success_page))
    ∧ ((r.name = "" ∨ r.email = "" ∨ r.subject = "" ∨ r.message = ""
        ∨ validEmail r.email = false) →
      (contact validEmail msgs r).1 = msgs
      ∧ (contact validEmail msgs r).2 =
          ContactResponse.form_page (formErrors validEmail r)
      ∧ formErrors validEmail r ≠ []) := by
  constructor
  · rintro ⟨hn, he, hsj, hm, hv⟩
    have e1 : (r.name == "") = false := beq_eq_false_iff_ne.mpr hn
    have e2 : (r.email == "") = false := beq_eq_false_iff_ne.mpr he
    have e3 : (r.subject == "") = false := beq_eq_false_iff_ne.mpr hsj
    have e4 : (r.message == "") = false := beq_eq_false_iff_ne.mpr hm
    have hval : formErrors validEmail r = [] := by
      simp [formErrors, e1, e2, e3, e4, hv]
    simp [contact, hpost, form_is_valid, hval, newContactMessage]
  · intro h
    have hne := formErrors_ne_nil h
    have hbe : form_is_valid validEmail r = false := by
      unfold form_is_valid
      cases hcase : formErrors validEmail r with
      | nil => exact absurd hcase hne
      | cons a t => simp [hcase]
    refine ⟨?_, ?_, hne⟩ <;> simp [contact, hpost, hbe]

/-- The framework email validator instantiated for the C5 witness (an
at-sign check stands in for the external validator). -/
def c5Email (e : String) : Bool := e.toList.contains '@'

/-- The spec's §8 example payload (valid case), for the C5 witness. -/
def c5Req : ContactRequest :=
  { method := "POST", name := "A", email := "a@b.com", subject := "S",
    message := "M", remote_addr := some "127.0.0.1",
    user_agent := some "UA", xhr := true }

/-- The message the C5 witness expects to be stored. -/
def c5Msg : ContactMessage :=
  { name := "A", email := "a@b.com", subject := "S", message := "M",
    status := "new", ip_address := some "127.0.0.1", user_agent := "UA" }

/-- Witness for C5: the example payload stores exactly one `new` message. -/
theorem contact_post_spec_witness :
    contact c5Email ([] : List ContactMessage) c5Req =
      ([c5Msg], ContactResponse.json_success) := by
  have h := (contact_post_spec c5Email [] c5Req (by decide)).1
    ⟨by decide, by decide, by decide, by decide, by decide⟩
  exact h

/-- C8: for FAQ and skill grouping, each bucket equals the canonical-sorted
input restricted to its category (so the bucket preserves the input's
relative order), and the buckets appear in the order their categories are
first encountered in that sorted input. -/
theorem grouping_preserves_order (db : ContentStore) :
    (∀ kb ∈ faq_list db,
      kb.2 = (faqSorted db).filter (fun y => y.category == kb.1))
    ∧ (faq_list db).map Prod.fst
        = dedupFirst ((faqSorted db).map (fun y => y.category))
    ∧ (∀ kb ∈ (home db).skills_by_category,
      kb.2 = (home db).skills.filter (fun y => y.category == kb.1))
    ∧ ((home db).skills_by_category).map Prod.fst
        = dedupFirst ((home db).skills.map (fun y => y.category)) := by
  refine ⟨?_, ?_, ?_, ?_⟩
  · intro kb hkb
    simp only [faq_list] at hkb
    exact (groupByCat_spec (fun f => f.category) (faqSorted db)).1 kb hkb
  · simpa [faq_list] using
      (groupByCat_spec (fun f => f.category) (faqSorted db)).2
  · intro kb hkb
    simp only [home] at hkb ⊢
    exact (groupByCat_spec (fun sk => sk.category)
      (sortByCatOrder (fun sk => sk.category) (fun sk => sk.order)
        (db.skills.filter (fun sk => sk.is_active)))).1 kb hkb
  · simp only [home]
    exact (groupByCat_spec (fun sk => sk.category)
      (sortByCatOrder (fun sk => sk.category) (fun sk => sk.order)
        (db.skills.filter (fun sk => sk.is_active)))).2

/-- The canonical project order stated by the spec: featured records may
precede non-featured ones, and within equal featured status newer records
precede older ones (`Project.Meta.ordering = ['-is_featured',
'-created_at']`). -/
def projCanonicalBefore (a b : Project) : Prop :=
  (a.is_featured = true ∧ b.is_featured = false)
  ∨ (a.is_featured = b.is_featured ∧ b.created_at ≤ a.created_at)

instance : DecidableRel projCanonicalBefore := fun a b => by
  unfold projCanonicalBefore
  infer_instance

/-- An older featured project, for the C6 counterexample. -/
def c6Featured : Project :=
  { id := 1, title := "Old featured", description := "D",
    project_type := "web", technologies := "x", github_url := "",
    live_url := "", is_featured := true, is_active := true,
    start_date := 0, end_date := none, created_at := 1 }

/-- A newer non-featured project, for the C6 counterexample. -/
def c6Recent : Project :=
  { id := 2, title := "New plain", description := "D",
    project_type := "web", technologies := "x", github_url := "",
    live_url := "", is_featured := false, is_active := true,
    start_date := 0, end_date := none, created_at := 2 }

/-- See `c6Featured`. -/
def c6Db : ContentStore :=
  { emptyStore with projects := [c6Featured, c6Recent] }

/-- C6 counterexample: the public project listing puts the newer
non-featured project before the older featured one, so its output is not
ordered by the canonical featured-first order the claim states. -/
theorem project_list_not_canonical_cex :
    project_list c6Db none none none = [c6Recent, c6Featured]
    ∧ ¬ List.Sorted projCanonicalBefore (project_list c6Db none none none) := by
  constructor
  · decide
  · intro hsorted
    rw [show project_list c6Db none none none = [c6Recent, c6Featured]
      from by decide] at hsorted
    have hrel := List.rel_of_sorted_cons hsorted c6Featured
      (List.mem_singleton.mpr rfl)
    revert hrel
    decide

/-- C6 amended: the public project listing is ordered by creation time
only, newest first — the view's explicit `order_by('-created_at')` replaces
the model's default featured-first ordering, so the featured flag has no
effect on the listing order. -/
theorem project_list_newest_first (db : ContentStore)
    (t s pg : Option String) :
    List.Sorted (fun a b => b.created_at ≤ a.created_at)
      (project_list db t s pg) := by
  have hsor := sorted_sortDesc (fun p : Project => p.created_at)
    (applyOptFilter s projectSearchHit
      (applyOptFilter t (fun tv p => p.project_type == tv)
        (db.projects.filter (fun p => p.is_active))))
  have hslice : ∀ n, List.Sorted (fun a b : Project =>
      b.created_at ≤ a.created_at)
      ((Paginator.mk (sortDesc (fun p : Project => p.created_at)
        (applyOptFilter s projectSearchHit
          (applyOptFilter t (fun tv p => p.project_type == tv)
            (db.projects.filter (fun p => p.is_active))))) 9).pageSlice n) :=
    fun n => List.Pairwise.sublist
      ((List.take_sublist _ _).trans (List.drop_sublist _ _)) hsor
  show List.Sorted (fun a b : Project => b.created_at ≤ a.created_at)
    ((Paginator.mk (sortDesc (fun p : Project => p.created_at)
      (applyOptFilter s projectSearchHit
        (applyOptFilter t (fun tv p => p.project_type == tv)
          (db.projects.filter (fun p => p.is_active))))) 9).get_page pg)
  unfold Paginator.get_page
  repeat' split
  all_goals exact hslice _

/-- Two active projects on distinct days, for the C4 counterexample. -/
def c4P1 : Project :=
  { id := 1, title := "P1", description := "D", project_type := "web",
    technologies := "x", github_url := "", live_url := "",
    is_featured := false, is_active := true, start_date := 0,
    end_date := none, created_at := 1 }

/-- See `c4P1`. -/
def c4P2 : Project :=
  { id := 2, title := "P2", description := "D", project_type := "web",
    technologies := "x", github_url := "", live_url := "",
    is_featured := false, is_active := true, start_date := 0,
    end_date := none, created_at := 2 }

/-- See `c4P1`. -/
def c4Db : ContentStore := { emptyStore with projects := [c4P1, c4P2] }

/-- The paginator `api_projects` builds for `c4Db` with `per_page=1`. -/
def c4Paginator : Paginator Project :=
  Paginator.mk (apiProjectsQueryset c4Db) 1

/-- C4 counterexample: with 2 projects at one per page, requesting page 3
(beyond the last page, 2) of the API listing returns page 1's content
(the newest project), not the last valid page's content — refuting the
claim's universal "beyond-last returns the last valid page". -/
theorem api_beyond_last_cex :
    (api_projects c4Db (some "3") (some "1")).map (fun res => res.projects)
      = some [toApiProject c4P2]
    ∧ (c4Paginator.pageSlice c4Paginator.num_pages).map toApiProject
      = [toApiProject c4P1]
    ∧ (c4Paginator.num_pages : Int) < 3
    ∧ [toApiProject c4P2] ≠ [toApiProject c4P1] := by
  refine ⟨by decide, by decide, by decide, by decide⟩

/-- C4 amended: for a valid page number `N` every paginated view returns
exactly `min(P, total - (N-1)*P)` items; the template views
(`Paginator.get_page`) clamp a beyond-last page number to the last valid
page, while the JSON API view (`api_projects`) instead falls back to page
1 when the requested page is out of range. -/
theorem pagination_spec :
    (∀ (α : Type) (p : Paginator α) (N : Nat), 1 ≤ p.per_page → 1 ≤ N →
      N ≤ p.num_pages →
      (p.pageSlice N).length = min p.per_page (p.count - (N - 1) * p.per_page))
    ∧ (∀ (α : Type) (p : Paginator α) (str : String) (m : Int),
      pyInt str = some m → (p.num_pages : Int) < m →
      p.get_page (some str) = p.pageSlice p.num_pages)
    ∧ (∀ (db : ContentStore) (s1 s2 : String) (m1 m2 : Int),
      pyInt s1 = some m1 → pyInt s2 = some m2 → 1 ≤ m2 →
      ((Paginator.mk (apiProjectsQueryset db) m2.toNat).num_pages : Int) < m1 →
      api_projects db (some s1) (some s2) =
        some { projects :=
                 ((Paginator.mk (apiProjectsQueryset db) m2.toNat).pageSlice
                   1).map toApiProject,
               pagination :=
                 { total :=
                     (Paginator.mk (apiProjectsQueryset db) m2.toNat).count,
                   pages :=
                     (Paginator.mk (apiProjectsQueryset db) m2.toNat).num_pages,
                   current := 1,
                   has_next := decide (1 <
                     (Paginator.mk (apiProjectsQueryset db) m2.toNat).num_pages),
                   has_previous := false } }) := by
  refine ⟨?_, ?_, ?_⟩
  · intro α p N hpp hN1 hN2
    exact length_pageSlice p N
  · intro α p str m hp hm
    have hv : p.validate m = none := by
      unfold Paginator.validate
      rw [if_neg]
      rintro ⟨h1, h2⟩
      exact absurd h2 (not_le.mpr hm)
    unfold Paginator.get_page
    simp only [hp, hv]
  · intro db s1 s2 m1 m2 hp1 hp2 hm2 hgt
    have hv : (Paginator.mk (apiProjectsQueryset db) m2.toNat).validate m1
        = none := by
      unfold Paginator.validate
      rw [if_neg]
      rintro ⟨h1, h2⟩
      exact absurd h2 (not_le.mpr hgt)
    simp only [api_projects, intParam, hp1, hp2, if_pos hm2, hv]
    rfl

/-- Witness for C4 at concrete paginators: page 2 of `[10, 20, 30]` at two
per page has 1 item, page 5 clamps to page 2, and the API call of the C4
counterexample store falls back to page 1. -/
theorem pagination_spec_witness :
    ((Paginator.mk [10, 20, 30] 2).pageSlice 2).length
      = min (Paginator.mk [10, 20, 30] 2).per_page
          ((Paginator.mk [10, 20, 30] 2).count
            - (2 - 1) * (Paginator.mk [10, 20, 30] 2).per_page)
    ∧ (Paginator.mk [10, 20, 30] 2).get_page (some "5")
      = (Paginator.mk [10, 20, 30] 2).pageSlice
          (Paginator.mk [10, 20, 30] 2).num_pages
    ∧ api_projects c4Db (some "3") (some "1") =
        some { projects :=
                 ((Paginator.mk (apiProjectsQueryset c4Db)
                   (1 : Int).toNat).pageSlice 1).map toApiProject,
               pagination :=
                 { total := (Paginator.mk (apiProjectsQueryset c4Db)
                     (1 : Int).toNat).count,
                   pages := (Paginator.mk (apiProjectsQueryset c4Db)
                     (1 : Int).toNat).num_pages,
                   current := 1,
                   has_next := decide (1 < (Paginator.mk
                     (apiProjectsQueryset c4Db) (1 : Int).toNat).num_pages),
                   has_previous := false } } :=
  ⟨pagination_spec.1 Nat (Paginator.mk [10, 20, 30] 2) 2
      (by decide) (by decide) (by decide),
   pagination_spec.2.1 Nat (Paginator.mk [10, 20, 30] 2) "5" 5
      (by decide) (by decide),
   pagination_spec.2.2 c4Db "3" "1" 3 1
      (by decide) (by decide) (by decide) (by decide)⟩

/-- C7 counterexample: a request to the API endpoint with the malformed
page parameter `abc` makes the handler raise an uncaught exception
(`int('abc')` raises `ValueError` before any `try` block) instead of
terminating with a normal response. -/
theorem api_nonint_page_cex :
    api_projects emptyStore (some "abc") none = none := by decide

/-- C7 amended: the template-rendered endpoints are total on all query
parameters, but the JSON API endpoint terminates with a normal response
iff its `page` parameter parses as an integer and its `per_page` parameter
parses as an integer that is at least 1; otherwise an uncaught exception
escapes the handler. -/
theorem api_projects_response_characterization (db : ContentStore)
    (pg pp : Option String) :
    (api_projects db pg pp).isSome = true ↔
      ((intParam 1 pg).isSome = true
        ∧ ∃ m, intParam 9 pp = some m ∧ 1 ≤ m) := by
  unfold api_projects
  cases h1 : intParam 1 pg with
  | none => simp
  | some m1 =>
    cases h2 : intParam 9 pp with
    | none => simp
    | some m2 =>
      by_cases hm : 1 ≤ m2
      · simp [hm]
      · simp [hm]
